import Mathlib

/-!
Shallow embedding of the libimc PNG decoder and pixmap kernel
(src/png_parser.c and src/pixmap.c), together with theorems that check
the specification claims against it.

Modelling conventions: machine integers become Nat or Int, with an
explicit reduction modulo 256 exactly where the C code truncates to a
byte; byte buffers and file streams become lists of Nat; a C float
computation is modelled in exact integer or rational arithmetic only at
points where the float evaluation is exact or provably rounds the same
way, and each such point carries a comment saying why.
-/

namespace Libimc

/-- The ImcError_t enumeration from imc_common.h. -/
inductive ImcError where
  | EFAIL
  | EOK
  | ENOMEM
  | EFAULT
  | EINVAL
  | ENODATA
  | EOVERFLOW
deriving DecidableEq

/-- imc_sizeof_px from pixmap.c: the size in bytes of a single pixel,
n_channels when bit_depth is at most 8, otherwise twice that. -/
def imc_sizeof_px (n_channels bit_depth : Nat) : Nat :=
  if bit_depth ≤ 8 then n_channels else n_channels * 2

/-- Scanline length in bytes, as computed in imc_reconstruct_idat in
png_parser.c: (n_channels * width * bit_depth + 7) shifted right by 3. -/
def scanline_len (width n_channels bit_depth : Nat) : Nat :=
  (n_channels * width * bit_depth + 7) / 8

/-- Size of the buffer malloc-ed for pixmap data in imc_reconstruct_idat:
scanline_len * height bytes. -/
def pixmap_data_len (width height n_channels bit_depth : Nat) : Nat :=
  scanline_len width n_channels bit_depth * height

/-- Which (color_type, bit_depth) pairs the IHDR interpreter in
imc_chunk_to_ihdr accepts without calling exit or failing an assert:
truecolor (2) and truecolor with alpha (6), each with depth 8 or 16. -/
def ihdr_admits (color_type bit_depth : Nat) : Bool :=
  (color_type == 2 || color_type == 6) && (bit_depth == 8 || bit_depth == 16)

/-- Channel count the IHDR interpreter derives for an admitted color type. -/
def ihdr_n_channels (color_type : Nat) : Nat :=
  if color_type = 2 then 3 else 4

/-! The scanline loop of imc_reconstruct_idat iterates
for (decomp_off = 0; decomp_off < scanline_len * height; decomp_off += scanline_len)
and additionally advances decomp_off by one inside the body when it
consumes the filter-type byte, so each iteration advances the offset by
scanline_len + 1 while the bound counts only scanline_len * height bytes.
The two functions below model that loop and count its iterations, i.e.
the number of scanlines the function reconstructs.  The recursion is
fuel-based so that the kernel can evaluate it; the fuel s * h + 1 is an
upper bound on the iteration count because each iteration advances the
offset by at least one toward the bound s * h. -/

/-- Iteration counter for the reconstruction loop: s is scanline_len,
bound is scanline_len * height, off the running decomp_off. -/
def recon_rows_go (s bound : Nat) : Nat → Nat → Nat
  | 0, _ => 0
  | fuel + 1, off =>
      if off < bound then recon_rows_go s bound fuel (off + 1 + s) + 1 else 0

/-- Number of scanlines the loop of imc_reconstruct_idat reconstructs for
scanline length s and image height h. -/
def recon_row_count (s h : Nat) : Nat :=
  recon_rows_go s (s * h) (s * h + 1) 0

/-! The five per-byte reconstruction functions from png_parser.c.  Each
takes the previous reconstructed scanline, the current scanline (already
reconstructed up to idx, since the C code writes results in place), the
stride argument that the call site passes (the C call site passes
ihdr->n_channels), and the byte index. -/

/-- imc_recon_none: the byte is returned unchanged. -/
def imc_recon_none (prev curr : List Nat) (n_channels idx : Nat) : Nat :=
  curr.getD idx 0

/-- imc_recon_sub: x plus the byte n_channels positions to the left of the
same scanline, 0 for the first n_channels bytes, reduced modulo 256. -/
def imc_recon_sub (prev curr : List Nat) (n_channels idx : Nat) : Nat :=
  let x := curr.getD idx 0
  let a := if idx < n_channels then 0 else curr.getD (idx - n_channels) 0
  (x + a) % 256

/-- imc_recon_up: x plus the byte at the same index of the previous
scanline, reduced modulo 256. -/
def imc_recon_up (prev curr : List Nat) (n_channels idx : Nat) : Nat :=
  let x := curr.getD idx 0
  let b := prev.getD idx 0
  (x + b) % 256

/-- imc_peath_predictor from png_parser.c (the source spells the name
this way): p = a + b - c in signed arithmetic, absolute distances to a,
b and c, result defaults to c, is overwritten by b when pb is at most
pc, and by a when pa is at most both.  The nested conditional below has
exactly that priority order. -/
def imc_peath_predictor (a b c : Nat) : Nat :=
  let p : Int := (a : Int) + (b : Int) - (c : Int)
  let pa := (p - (a : Int)).natAbs
  let pb := (p - (b : Int)).natAbs
  let pc := (p - (c : Int)).natAbs
  if pa ≤ pb ∧ pa ≤ pc then a else if pb ≤ pc then b else c

/-- imc_recon_paeth: x plus the Paeth predictor of the left, up and
up-left neighbours, reduced modulo 256. -/
def imc_recon_paeth (prev curr : List Nat) (n_channels idx : Nat) : Nat :=
  let x := curr.getD idx 0
  let a := if idx < n_channels then 0 else curr.getD (idx - n_channels) 0
  let b := prev.getD idx 0
  let c := if idx < n_channels then 0 else prev.getD (idx - n_channels) 0
  (x + imc_peath_predictor a b c) % 256

/-- The Paeth predictor exactly as the specification words it: let
p = a + b - c (signed); pa, pb, pc the absolute differences; a when pa
is at most pb and at most pc; else b when pb is at most pc; else c, the
ties resolved in the order a before b before c. -/
def paeth_spec (a b c : Nat) : Nat :=
  let p : Int := (a : Int) + (b : Int) - (c : Int)
  let pa := (p - (a : Int)).natAbs
  let pb := (p - (b : Int)).natAbs
  let pc := (p - (c : Int)).natAbs
  if pa ≤ pb ∧ pa ≤ pc then a else if pb ≤ pc then b else c

/-- In-place reconstruction of one whole scanline with the Sub filter:
the C inner loop walks idx over the scanline and overwrites each byte
with imc_recon_sub of the partially reconstructed line. -/
def recon_sub_line (n_channels : Nat) (filtered : List Nat) : List Nat :=
  (List.range filtered.length).foldl
    (fun curr idx => curr.set idx (imc_recon_sub [] curr n_channels idx)) filtered

/-- The sample stride as the specification defines it:
max(1, n_channels * bit_depth / 8) bytes. -/
def sample_stride_spec (n_channels bit_depth : Nat) : Nat :=
  max 1 (n_channels * bit_depth / 8)

/-! Filter-type dispatch at the head of each scanline in
imc_reconstruct_idat.  The C code runs assert(fm <= 4) and then a switch
over the five filter values; a filter byte above 4 therefore aborts the
process (and with assertions compiled out the switch leaves the function
pointer undefined), it is never turned into an ImcError return value. -/

/-- The five PNG filter kinds the switch dispatches to. -/
inductive FilterKind where
  | NONE
  | SUB
  | UP
  | AVG
  | PAETH
deriving DecidableEq

/-- Outcome of the per-scanline filter-byte handling: either the switch
selects a reconstruction function, or the assert fails and the process
aborts. -/
inductive FilterStep where
  | run : FilterKind → FilterStep
  | assertAbort : FilterStep
deriving DecidableEq

/-- Model of assert(fm <= 4) followed by the switch in
imc_reconstruct_idat. -/
def filter_dispatch (fm : Nat) : FilterStep :=
  if fm ≤ 4 then
    FilterStep.run
      (if fm = 0 then FilterKind.NONE
       else if fm = 1 then FilterKind.SUB
       else if fm = 2 then FilterKind.UP
       else if fm = 3 then FilterKind.AVG
       else FilterKind.PAETH)
  else FilterStep.assertAbort

/-! Chunk reading.  imc_read_chunk performs four fread calls and never
inspects their return values; the Chunk_t destination is zero-initialized
by the caller, so a short read leaves the unread suffix of each field at
zero.  bytes_at models one such read: it takes what the stream still has
at the given position and zero-fills the rest of the requested length.
Allocation of the payload is modelled as always succeeding. -/

/-- Read n bytes of the stream starting at pos, zero-filled when the
stream is short. -/
def bytes_at (stream : List Nat) (pos n : Nat) : List Nat :=
  let avail := (stream.drop pos).take n
  avail ++ List.replicate (n - avail.length) 0

/-- Big-endian value of a byte list, the result of reading a 4-byte field
and flipping its endianness on a little-endian host. -/
def be_nat (bs : List Nat) : Nat :=
  bs.foldl (fun acc b => acc * 256 + b) 0

/-- The ASCII bytes of the IEND chunk type. -/
def iend_type : List Nat := [73, 69, 78, 68]

/-- A decoded chunk as imc_read_chunk fills it in. -/
structure ChunkM where
  length : Nat
  type : List Nat
  data : Option (List Nat)
  crc : Nat
deriving DecidableEq

/-- imc_read_chunk from png_parser.c: read the 4-byte big-endian length,
the 4-byte type, return EFAIL at IEND before touching data or crc, else
read the payload when the length is nonzero and the 4-byte big-endian
crc, and return EOK.  No read is checked for being short. -/
def imc_read_chunk (stream : List Nat) : ImcError × ChunkM :=
  let len := be_nat (bytes_at stream 0 4)
  let ty := bytes_at stream 4 4
  if ty = iend_type then
    (ImcError.EFAIL, ⟨len, ty, Option.none, 0⟩)
  else
    let d := if len = 0 then Option.none else Option.some (bytes_at stream 8 len)
    let crc := be_nat (bytes_at stream (8 + len) 4)
    (ImcError.EOK, ⟨len, ty, d, crc⟩)

/-! Pixmap transforms. -/

/-- ASCII decimal digit bytes of n, innermost worker (fuel-based so the
kernel can evaluate it; the fuel n + 1 exceeds the digit count). -/
def dec_bytes_go : Nat → Nat → List Nat → List Nat
  | 0, _, acc => acc
  | fuel + 1, n, acc =>
      if n < 10 then (48 + n) :: acc
      else dec_bytes_go fuel (n / 10) ((48 + n % 10) :: acc)

/-- ASCII decimal digit bytes of n, as fprintf renders a nonnegative
integer. -/
def dec_bytes (n : Nat) : List Nat := dec_bytes_go (n + 1) n []

/-- The header bytes written by imc_pixmap_to_ppm: the magic P6 and a
newline, then scanline_len = width / pixel size (not the width field),
a space, the height, a newline, the maxval 2 ^ bit_depth - 1, and a
newline.  The C code computes maxval as powf(2, bit_depth) - 1 in
float, which is exact for every bit depth below 24, so the Nat power
models it faithfully for the admitted depths 8 and 16. -/
def ppm_header (width height n_channels bit_depth : Nat) : List Nat :=
  [80, 54, 10]
    ++ dec_bytes (width / imc_sizeof_px n_channels bit_depth) ++ [32]
    ++ dec_bytes height ++ [10]
    ++ dec_bytes (2 ^ bit_depth - 1) ++ [10]

/-- The header bytes the claim states for a 3 by 2 RGB pixmap of bit
depth 8: the ASCII of P6, newline, 3, space, 2, newline, 255, newline. -/
def claim_ppm_header : List Nat := [80, 54, 10, 51, 32, 50, 10, 50, 53, 53, 10]

/-- The width and height imc_pixmap_rotate_cw assigns to the destination
pixmap: width = source height * pixel size, height = source width /
pixel size (pixmap.c, the two assignments to tmp right after the copy
of the source struct). -/
def rotate_cw_dims (width height n_channels bit_depth : Nat) : Nat × Nat :=
  (height * imc_sizeof_px n_channels bit_depth,
   width / imc_sizeof_px n_channels bit_depth)

/-- An RGB byte triple. -/
structure Rgb where
  r : Nat
  g : Nat
  b : Nat
deriving DecidableEq

/-- An RGBA byte quadruple. -/
structure Rgba where
  r : Nat
  g : Nat
  b : Nat
  a : Nat
deriving DecidableEq

/-- Element i of the data buffer viewed as an array of Rgb_t, as the C
cast ((Rgb_t*)pixmap->data)[i] reads it. -/
def rgb_at (data : List Nat) (i : Nat) : Rgb :=
  ⟨data.getD (3 * i) 0, data.getD (3 * i + 1) 0, data.getD (3 * i + 2) 0⟩

/-- Element i of the data buffer viewed as an array of Rgba_t. -/
def rgba_at (data : List Nat) (i : Nat) : Rgba :=
  ⟨data.getD (4 * i) 0, data.getD (4 * i + 1) 0,
   data.getD (4 * i + 2) 0, data.getD (4 * i + 3) 0⟩

/-- imc_pixmap_psample from pixmap.c.  The branch on three channels reads
an Rgb_t and promotes it with alpha 255; the second branch tests for two
channels (not four) and reads an Rgba_t; any other channel count leaves
the local rgba variable untouched, modelled by the uninit parameter. -/
def imc_pixmap_psample (width height n_channels bit_depth : Nat)
    (data : List Nat) (x y : Nat) (uninit : Rgba) : Rgba :=
  let x1 := if width ≤ x then width - 1 else x
  let x2 := x1 * imc_sizeof_px n_channels bit_depth
  let y1 := if height ≤ y then height - 1 else y
  let scan := width / imc_sizeof_px n_channels bit_depth
  if n_channels = 3 then
    let rgb := rgb_at data (y1 * scan + x2)
    ⟨rgb.r, rgb.g, rgb.b, 255⟩
  else if n_channels = 2 then
    rgba_at data (y1 * scan + x2)
  else uninit

/-! Normalized sampling.  imc_pixmap_nsample computes in 32-bit float;
the model below uses exact rationals.  At the concrete inputs the
theorems use, every float intermediate is one of the values 0.0 and 1.0,
which float arithmetic produces exactly, so the rational evaluation and
the float evaluation agree there. -/

/-- imc_clamp from imc_common.h. -/
def imc_clamp (lo hi x : ℚ) : ℚ :=
  if x < lo then lo else if hi < x then hi else x

/-- imc_lerp from imc_common.h. -/
def imc_lerp (a b t : ℚ) : ℚ := a * (1 - t) + b * t

/-- roundf on the nonnegative values that arise here: round half away
from zero, which on nonnegative arguments is the floor of q + 1/2. -/
def roundf_q (q : ℚ) : Int := ⌊q + (1 : ℚ) / 2⌋

/-- A C cast of a nonnegative float to int truncates toward zero, which
is the floor on the nonnegative values that arise here. -/
def trunc_q (q : ℚ) : Int := ⌊q⌋

/-- The buffer index computed by imc_pixmap_nsample: clamp both inputs
to the unit interval, scanline_len = width / pixel size, y_intrp =
scanline_len * round(y * height), x_intrp the truncated
lerp(0, width - 1, x) aligned down to a multiple of the pixel size, and
the final index y_intrp + x_intrp into the data viewed as an array of
whole pixels. -/
def nsample_index (width height n_channels bit_depth : Nat) (x y : ℚ) : Int :=
  let xc := imc_clamp 0 1 x
  let yc := imc_clamp 0 1 y
  let spx : Nat := imc_sizeof_px n_channels bit_depth
  let scan : Nat := width / spx
  let y_intrp : Int := (scan : Int) * roundf_q (yc * (height : ℚ))
  let xi : Int := trunc_q (imc_lerp 0 ((width : ℚ) - 1) xc)
  let x_intrp : Int := xi - xi % (spx : Int)
  y_intrp + x_intrp

/-- The pixel address rule the claim states for sample_norm: row =
round(y * height) clamped to the row range, col = round(x * (width - 1))
clamped to the column range, both pixel indices, and the linear pixel
index is row * width + col. -/
def nsample_spec_index (width height : Nat) (x y : ℚ) : Int :=
  let row : Int := max 0 (min ((height : Int) - 1) (roundf_q (y * (height : ℚ))))
  let col : Int := max 0 (min ((width : Int) - 1) (roundf_q (x * ((width : ℚ) - 1))))
  row * (width : Int) + col

/-! ASCII projection.  The three-channel branch of imc_pixmap_to_ascii
computes luma = 0.2126 r/255 + 0.7152 g/255 + 0.0722 b/255 and the ramp
index round(luma * 10) - 1, clamped to 0..9.  The model computes the
same value in exact arithmetic with the weights written over the common
denominator 10000.  For the inputs used in the theorems the argument of
roundf is about 5.02, far from a rounding tie, and the float evaluation
differs from the exact one by far less than that distance, so both round
to the same integer. -/

/-- Round to nearest, half up, of the nonnegative fraction num / den. -/
def round_div (num den : Nat) : Nat := (2 * num + den) / (2 * den)

/-- The ten-character luma ramp of imc_pixmap_to_ascii as ASCII bytes:
space, period, colon, minus, equals, plus, star, hash, percent, at. -/
def ascii_luma : List Nat := [32, 46, 58, 45, 61, 43, 42, 35, 37, 64]

/-- luma_idx of the three-channel branch: round(luma * 10) - 1 with
luma = (2126 r + 7152 g + 722 b) / (10000 * 255). -/
def luma_idx_3 (r g b : Nat) : Int :=
  (round_div (10 * (2126 * r + 7152 * g + 722 * b)) (10000 * 255) : Int) - 1

/-- The character the three-channel branch stores for a pixel: the ramp
entry at luma_idx clamped to 0..9, as imc_clamp does on the integral
values that reach it. -/
def ascii_char_3 (r g b : Nat) : Nat :=
  let idx := luma_idx_3 r g b
  let clamped : Int := if idx < 0 then 0 else if 9 < idx then 9 else idx
  ascii_luma.getD clamped.toNat 0

/-!
Theorems, one per claim of the specification review.
-/

/-- C1: the claim states that reconstruction reaches Done only after all
height scanlines are produced for every admitted header.  The header
validator admits truecolor with bit depth 8, so width 1, height 4,
3 channels and depth 8 is admitted and has scanline_len 3; the pixmap
data buffer does get scanline_len * height = 12 bytes, but the loop of
imc_reconstruct_idat compares an offset that also counts the four
filter-type bytes against that 12-byte bound, so it stops after 3
scanlines instead of 4. -/
theorem c1_reconstruct_stops_early :
    ihdr_admits 2 8 = true ∧
    ihdr_n_channels 2 = 3 ∧
    scanline_len 1 3 8 = 3 ∧
    pixmap_data_len 1 4 3 8 = 12 ∧
    recon_row_count 3 4 = 3 ∧
    recon_row_count 3 4 ≠ 4 := by decide

/-- C2: every byte reconstructed by the Paeth branch equals the filtered
byte plus the Paeth predictor of the left, up and up-left neighbours,
modulo 256, with the predictor selecting a, then b, then c exactly as
the specification words it. -/
theorem c2_recon_paeth_matches_spec (prev curr : List Nat) (n_channels idx : Nat) :
    imc_recon_paeth prev curr n_channels idx =
      (curr.getD idx 0 +
        paeth_spec (if idx < n_channels then 0 else curr.getD (idx - n_channels) 0)
          (prev.getD idx 0)
          (if idx < n_channels then 0 else prev.getD (idx - n_channels) 0)) % 256 := rfl

/-- C3: the claim states the Sub filter uses the sample stride
max(1, n_channels * bit_depth / 8), that is 6 bytes for 3 channels at
depth 16, while the call site of imc_recon_sub always passes n_channels
= 3; on the filtered scanline 1 0 0 1 0 0 of a width-1 16-bit RGB image
the code adds the byte three positions back and produces 1 0 0 2 0 0,
whereas the stride the claim states leaves the line at 1 0 0 1 0 0. -/
theorem c3_sub_stride_is_n_channels :
    sample_stride_spec 3 16 = 6 ∧
    recon_sub_line 3 [1, 0, 0, 1, 0, 0] = [1, 0, 0, 2, 0, 0] ∧
    recon_sub_line (sample_stride_spec 3 16) [1, 0, 0, 1, 0, 0] = [1, 0, 0, 1, 0, 0] ∧
    recon_sub_line 3 [1, 0, 0, 1, 0, 0] ≠
      recon_sub_line (sample_stride_spec 3 16) [1, 0, 0, 1, 0, 0] := by decide

/-- C4: the claim states sample_norm addresses the pixel at the clamped
row round(y * height) and column round(x * (width - 1)).  For a 2 by 1
RGB pixmap of depth 8 at x = 1, y = 0 that address is pixel 1, but
imc_pixmap_nsample divides the width by the pixel size (giving scanline
0), truncates the lerp and aligns it down to a multiple of the pixel
size, and reads pixel 0. -/
theorem c4_nsample_wrong_pixel :
    nsample_index 2 1 3 8 1 0 = 0 ∧
    nsample_spec_index 2 1 1 0 = 1 ∧
    nsample_index 2 1 3 8 1 0 ≠ nsample_spec_index 2 1 1 0 := by
  refine ⟨?_, ?_, ?_⟩ <;>
    · simp only [nsample_index, nsample_spec_index, imc_clamp, imc_lerp, roundf_q,
        trunc_q, imc_sizeof_px]
      norm_num

/-- C5: the claim states the PPM header for a 3 by 2 RGB pixmap of depth
8 is the bytes of P6, newline, 3, space, 2, newline, 255, newline, but
imc_pixmap_to_ppm writes width / pixel size = 1 in place of the width,
so the produced header carries the digit 1 where the claim has 3. -/
theorem c5_ppm_header_writes_scanline_len :
    ppm_header 3 2 3 8 = [80, 54, 10, 49, 32, 50, 10, 50, 53, 53, 10] ∧
    ppm_header 3 2 3 8 ≠ claim_ppm_header := by decide

/-- C6: the claim states rotate_cw swaps width and height in pixels, so
a 3 by 2 RGB pixmap of depth 8 should become 2 by 3, but
imc_pixmap_rotate_cw multiplies the source height by the pixel size and
divides the source width by it, producing width 6 and height 1. -/
theorem c6_rotate_cw_wrong_dims :
    rotate_cw_dims 3 2 3 8 = (6, 1) ∧
    rotate_cw_dims 3 2 3 8 ≠ (2, 3) := by decide

/-- C7 counterexample: the claim states a filter byte outside 0..4 makes
the decode fail with an error surfaced to the caller and not a process
abort, but at filter byte 5 the handling in imc_reconstruct_idat is the
assert failing, a process abort. -/
theorem c7_filter_5_aborts :
    filter_dispatch 5 = FilterStep.assertAbort := by decide

/-- C7 amended: a filter byte at the head of a scanline triggers the
assert abort exactly when it lies outside 0..4; for bytes inside that
set the switch dispatches a reconstruction function and no abort
happens, but no InvalidFilter error value exists to be returned. -/
theorem c7_assert_iff_invalid (fm : Nat) :
    filter_dispatch fm = FilterStep.assertAbort ↔ 4 < fm := by
  unfold filter_dispatch
  by_cases h : fm ≤ 4
  · simp [h]
  · simp [h]
    omega

/-- C8 counterexample: the claim states the chunk reader fails with an
input-output error whenever one of its four reads is short; on the
empty stream every read is short, yet imc_read_chunk returns the
success code EOK. -/
theorem c8_short_reads_return_eok :
    (imc_read_chunk []).1 = ImcError.EOK := by decide

/-- C8 amended: imc_read_chunk never reports a short read; its status is
always EFAIL or EOK, and it is EFAIL exactly when the four type bytes
(zero-filled if the stream ran out) spell IEND. -/
theorem c8_status_characterization (stream : List Nat) :
    ((imc_read_chunk stream).1 = ImcError.EFAIL ∨
      (imc_read_chunk stream).1 = ImcError.EOK) ∧
    ((imc_read_chunk stream).1 = ImcError.EFAIL ↔
      bytes_at stream 4 4 = iend_type) := by
  unfold imc_read_chunk
  by_cases h : bytes_at stream 4 4 = iend_type <;> simp [h]

/-- C9 counterexample: the claim states that a uniform (128, 128, 128)
pixel projects to the minus character, ramp index 3, consistently with
the stated luma rule; but the stated rule gives luma 128/255, ramp index
round(1280/255) - 1 = 4, so the stored character is the equals sign
(byte 61), not the minus sign (byte 45). -/
theorem c9_midgray_is_not_minus :
    ascii_char_3 128 128 128 ≠ 45 ∧ ascii_char_3 128 128 128 = 61 := by decide

/-- C9 amended: a (128, 128, 128) pixel projects to ramp index 4, the
equals character, under the three-channel luma rule. -/
theorem c9_midgray_is_equals :
    luma_idx_3 128 128 128 = 4 ∧ ascii_char_3 128 128 128 = 61 := by decide

/-- C10: on a four-channel pixmap imc_pixmap_psample takes neither the
three-channel branch nor the two-channel branch, so the returned color
is the uninitialized local and independent of the data buffer. -/
theorem c10_psample_four_channels_ignores_buffer
    (width height bit_depth : Nat) (data : List Nat) (x y : Nat) (uninit : Rgba) :
    imc_pixmap_psample width height 4 bit_depth data x y uninit = uninit := rfl

end Libimc
